import Mathlib

/-!
Verification of the adaptive memory pressure monitor and release controller
(`src/services/memory_service.rs`, configuration in `src/config/settings.rs`).

Shallow-embedding conventions:
* `u64`/`usize`/`u32` values are `Nat`; `saturating_sub` is `Nat` subtraction.
* `Instant` timestamps are integer milliseconds (`ℤ`); `Duration::as_secs`
  of a difference is truncating division by `1000`.
* The pressure percentage `(current as f64 / threshold as f64) * 100.0` is
  modelled bit-exactly: an `F64` type (mantissa × power of two) with
  round-to-nearest-even conversion, division and multiplication, so u64
  operands above `2^53` round exactly as IEEE doubles do.  Division by a
  zero threshold yields `+inf` or `NaN`, both of which fail every `<`
  guard — modelled by an explicit zero-threshold branch.  The adaptive
  interval's multipliers (0.5/0.75/1.0/1.5/2.0) are dyadic, so exact `ℚ`
  with a final floor models that `f64` product and `as u64` cast exactly at
  every argument the clamp can distinguish.
* Blocking collaborator calls (jemalloc probe, sysinfo query, cache
  cleanup, purge) are abstracted by their observable outcomes, passed in as
  an explicit environment record.
-/

/-- Memory pressure levels (`MemoryPressure` in the source). -/
inductive MemoryPressure where
  | Low
  | Medium
  | High
  | Critical
deriving DecidableEq

/-- Error taxonomy (`MemoryError` in the source; message payloads elided). -/
inductive MemoryError where
  | JemallocUnavailable
  | MonitoringFailed
  | ReleaseFailed
  | InvalidConfig
  | MetricsCollectionFailed
  | CacheCleanupFailed
  | PressureCalculationFailed
  | MonitoringInitFailed
deriving DecidableEq

/-- `MemoryConfig` from `src/config/settings.rs`. -/
structure MemoryConfig where
  threshold_mb : Nat
  check_interval_secs : Nat
  gc_cooldown_secs : Nat
deriving DecidableEq

/-- The serde defaults (`default_memory_threshold` etc.): 500 / 30 / 30. -/
def MemoryConfig.defaults : MemoryConfig :=
  { threshold_mb := 500, check_interval_secs := 30, gc_cooldown_secs := 30 }

/-- `ReleaseResult` (the `timestamp: DateTime<Utc>` field, real wall time,
is not modelled). -/
structure ReleaseResult where
  memory_freed_mb : Nat
  cache_entries_cleared : Nat
  gc_executed : Bool
deriving DecidableEq

/-- `MemoryMonitorState` from the source. -/
structure MemoryMonitorState where
  current_usage_mb : Nat
  peak_usage_mb : Nat
  pressure_level : MemoryPressure
  last_release_time : Option ℤ
  release_count : Nat
  total_freed_mb : Nat
deriving DecidableEq

/-- `PerformanceStats` from the source; the two f64 running averages are
kept as exact rationals. -/
structure PerformanceStats where
  monitoring_cycles : Nat
  avg_monitoring_time_ms : ℚ
  max_monitoring_time_ms : Nat
  memory_query_success : Nat
  memory_query_failures : Nat
  avg_memory_query_time_ms : ℚ
  interval_adjustments : Nat
  current_dynamic_interval : Nat
deriving DecidableEq

/-- `PerformanceStats::default()`: all zero except a 30 s dynamic interval. -/
def PerformanceStats.defaults : PerformanceStats :=
  { monitoring_cycles := 0
    avg_monitoring_time_ms := 0
    max_monitoring_time_ms := 0
    memory_query_success := 0
    memory_query_failures := 0
    avg_memory_query_time_ms := 0
    interval_adjustments := 0
    current_dynamic_interval := 30 }

/-- The fields of `MemoryManager` behind their `Arc<Mutex<_>>` wrappers,
as one state record.  `memory_history` entries are `(instant_ms, usage_mb)`,
oldest first (Rust `Vec::push` appends at the back). -/
structure ManagerState where
  config : MemoryConfig
  last_gc_time : ℤ
  memory_pressure : MemoryPressure
  gc_failure_count : Nat
  monitor_state : MemoryMonitorState
  performance_stats : PerformanceStats
  start_time : ℤ
  memory_history : List (ℤ × Nat)
  system_memory_history : List Nat
deriving DecidableEq

/-- `MemoryManager::new(config)`.  The Rust constructor returns `Self`
directly (there is no `Result` and no validation of the configuration);
`last_gc_time` is seeded with `Instant::now()` — the construction instant
`now` — while `monitor_state.last_release_time` starts as `None`. -/
def MemoryManager.new (config : MemoryConfig) (now : ℤ) : ManagerState :=
  { config := config
    last_gc_time := now
    memory_pressure := MemoryPressure.Low
    gc_failure_count := 0
    monitor_state :=
      { current_usage_mb := 0
        peak_usage_mb := 0
        pressure_level := MemoryPressure.Low
        last_release_time := none
        release_count := 0
        total_freed_mb := 0 }
    performance_stats := PerformanceStats.defaults
    start_time := now
    memory_history := []
    system_memory_history := [] }

/-- A nonnegative finite IEEE double, as mantissa times power of two:
value `m * 2^e` with `m = 0` or `2^52 ≤ m < 2^53`.  The pressure
percentage only ever produces normal (or zero) values — its operands are
`u64`s, so no overflow or subnormal arises — which lets the exponent range
stay unbounded here. -/
structure F64 where
  m : Nat
  e : ℤ

/-- Number of binary digits of `n`, with explicit fuel (structural
recursion; fuel 128 is exact for every value arising below). -/
def bitlen : Nat → Nat → Nat
  | 0, _ => 0
  | fuel + 1, n => if n = 0 then 0 else bitlen fuel (n / 2) + 1

/-- Round-to-nearest, ties-to-even of `q + r/d` (with `0 ≤ r < d`) to an
integer — the IEEE default rounding at integer granularity. -/
def rnd (q r d : Nat) : Nat :=
  if 2 * r < d then q
  else if d < 2 * r then q + 1
  else q + q % 2

/-- Round the integer `p` (scaled by `2^e`) to 53 significant bits,
normalizing the mantissa into `[2^52, 2^53)`. -/
def f64_normalize (p : Nat) (e : ℤ) : F64 :=
  if p = 0 then ⟨0, 0⟩
  else
    let lb := bitlen 128 p
    if lb ≤ 53 then ⟨p * 2 ^ (53 - lb), e - ((53 - lb : Nat) : ℤ)⟩
    else
      let s := lb - 53
      let m0 := rnd (p / 2 ^ s) (p % 2 ^ s) (2 ^ s)
      if m0 = 2 ^ 53 then ⟨2 ^ 52, e + s + 1⟩ else ⟨m0, e + s⟩

/-- `n as f64` for a `u64` `n`: round to nearest even. -/
def f64_of_nat (n : Nat) : F64 := f64_normalize n 0

/-- IEEE double division `a / b` for `b ≠ 0` (round to nearest even). -/
def f64_div (a b : F64) : F64 :=
  if a.m = 0 then ⟨0, 0⟩
  else
    let num := a.m * 2 ^ 53
    let q := num / b.m
    let r := num % b.m
    if q < 2 ^ 53 then
      let m0 := rnd q r b.m
      if m0 = 2 ^ 53 then ⟨2 ^ 52, a.e - b.e - 52⟩ else ⟨m0, a.e - b.e - 53⟩
    else
      let m0 := rnd (q / 2) (q % 2 * b.m + r) (2 * b.m)
      if m0 = 2 ^ 53 then ⟨2 ^ 52, a.e - b.e - 51⟩ else ⟨m0, a.e - b.e - 52⟩

/-- IEEE double multiplication by the exact constant `100.0`. -/
def f64_mul100 (a : F64) : F64 := f64_normalize (a.m * 100) a.e

/-- Exact comparison of a nonnegative double against the integer band
edges (`60.0`, `80.0`, `100.0` are exactly representable, so the f64
comparison coincides with comparing the exact values). -/
def f64_lt_nat (a : F64) (k : Nat) : Bool :=
  if 0 ≤ a.e then decide (a.m * 2 ^ a.e.toNat < k)
  else decide (a.m < k * 2 ^ (-a.e).toNat)

/-- `calculate_pressure_level`: `usage_percentage = (current_mb as f64 /
threshold_mb as f64) * 100.0` matched against the guards `< 60.0`,
`< 80.0`, `< 100.0` in order.  Both `as f64` conversions, the division and
the multiplication round to nearest even, modelled bit-exactly by the
`F64` functions above.  For `threshold_mb = 0` the division produces
`+inf` (`current > 0`) or `NaN` (`0.0/0.0`); both compare false under
every `<` guard, so the match falls through to `Critical` — encoded by the
explicit zero branch. -/
def calculate_pressure_level (current_mb threshold_mb : Nat) : MemoryPressure :=
  if threshold_mb = 0 then
    MemoryPressure.Critical
  else
    let p := f64_mul100 (f64_div (f64_of_nat current_mb) (f64_of_nat threshold_mb))
    if f64_lt_nat p 60 then MemoryPressure.Low
    else if f64_lt_nat p 80 then MemoryPressure.Medium
    else if f64_lt_nat p 100 then MemoryPressure.High
    else MemoryPressure.Critical

/-- The spec's ideal band arithmetic on the exact rational percentage,
without f64 rounding — a second, clearly named definition following the
spec's words (`Low <60%, Medium [60,80)%, High [80,100)%, Critical ≥100%`),
to be compared with the f64-faithful `calculate_pressure_level`. -/
def calculate_pressure_level_exact (current_mb threshold_mb : Nat) : MemoryPressure :=
  if threshold_mb = 0 then
    MemoryPressure.Critical
  else
    let usage_percentage : ℚ := (current_mb : ℚ) / (threshold_mb : ℚ) * 100
    if usage_percentage < 60 then MemoryPressure.Low
    else if usage_percentage < 80 then MemoryPressure.Medium
    else if usage_percentage < 100 then MemoryPressure.High
    else MemoryPressure.Critical

/-- `should_trigger_release(current_mb)`: below-or-at threshold is an early
`false`; otherwise the whole-second `elapsed` since `last_gc_time` must have
reached `gc_cooldown_secs`. -/
def should_trigger_release (cfg : MemoryConfig) (current_mb elapsed_secs : Nat) : Bool :=
  if current_mb ≤ cfg.threshold_mb then false
  else decide (cfg.gc_cooldown_secs ≤ elapsed_secs)

/-- `should_trigger_release` evaluated against a manager state at instant
`now` (ms): the elapsed time is `last_gc_time.elapsed().as_secs()`. -/
def should_trigger_release_at (st : ManagerState) (current_mb : Nat) (now : ℤ) : Bool :=
  should_trigger_release st.config current_mb ((now - st.last_gc_time).toNat / 1000)

/-- `update_memory_query_stats`: bump the success or failure counter, then
fold `duration_ms` into the running average over the new total. -/
def update_memory_query_stats (stats : PerformanceStats) (duration_ms : Nat)
    (success : Bool) : PerformanceStats :=
  let stats1 :=
    if success then
      { stats with memory_query_success := stats.memory_query_success + 1 }
    else
      { stats with memory_query_failures := stats.memory_query_failures + 1 }
  let total_queries := stats1.memory_query_success + stats1.memory_query_failures
  if 0 < total_queries then
    { stats1 with
      avg_memory_query_time_ms :=
        (stats1.avg_memory_query_time_ms * ((total_queries - 1 : Nat) : ℚ)
          + (duration_ms : ℚ)) / (total_queries : ℚ) }
  else stats1

/-- `update_memory_history`: push `(now, memory_mb)`, drop the front element
if the length exceeds 1000 (`history.remove(0)`), then retain only samples
with `timestamp > now - 3600 s` (3 600 000 ms).  The source follows this
with a call to `update_system_memory_history`, modelled separately. -/
def update_memory_history (history : List (ℤ × Nat)) (now : ℤ)
    (memory_mb : Nat) : List (ℤ × Nat) :=
  let h1 := history ++ [(now, memory_mb)]
  let h2 := if 1000 < h1.length then h1.tail else h1
  h2.filter (fun s => decide (now - 3600000 < s.1))

/-- `update_system_memory_history`: push at the back of the deque, pop the
front when more than 60 points are held. -/
def update_system_memory_history (sys_history : List Nat) (memory_mb : Nat) : List Nat :=
  let h1 := sys_history ++ [memory_mb]
  if 60 < h1.length then h1.tail else h1

/-- `get_memory_trend`: needs at least 10 samples; takes the most recent
`clamp(len/4, 5, 50)` samples (newest first), estimates
`(newest.usage - oldest.usage) * 3600 / span` where `span` is the
whole-second (`as_secs`) width of the sub-window, and returns `none` on a
zero span. -/
def get_memory_trend (history : List (ℤ × Nat)) : Option ℚ :=
  if history.length < 10 then none
  else
    let recent_count := min (max (history.length / 4) 5) 50
    let recent_data := history.reverse.take recent_count
    if recent_data.length < 2 then none
    else
      match recent_data.head?, recent_data.getLast? with
      | some newest, some oldest =>
          let first_memory : ℚ := (oldest.2 : ℚ)
          let last_memory : ℚ := (newest.2 : ℚ)
          let time_span : Nat := (newest.1 - oldest.1).toNat / 1000
          if 0 < time_span then
            some ((last_memory - first_memory) * 3600 / (time_span : ℚ))
          else none
      | _, _ => none

/-- Outcomes of the collaborator calls made by `get_current_memory_usage`:
`jemalloc_bytes = some b` stands for the 5 s timeout, the blocking task and
the probe all succeeding with `b` bytes; `sysinfo_bytes = some b` stands
for the sysinfo fallback finding the process with `b` resident bytes
(`none` covers both the process-lookup failure and a panicked task, each of
which becomes a `MetricsCollectionFailed` error). -/
structure QueryEnv where
  jemalloc_available : Bool
  jemalloc_bytes : Option Nat
  sysinfo_bytes : Option Nat
deriving DecidableEq

/-- The mutable state touched by `get_current_memory_usage`. -/
structure QueryState where
  performance_stats : PerformanceStats
  memory_history : List (ℤ × Nat)
  system_memory_history : List Nat
deriving DecidableEq

/-- The sysinfo fallback half of `get_current_memory_usage`: a successful
process query records a success plus a history sample and returns the MB
value; a failure records a failure and returns the error, leaving the
history untouched. -/
def fallback_memory_query (env : QueryEnv) (st : QueryState) (now : ℤ)
    (duration_ms : Nat) : Except MemoryError Nat × QueryState :=
  match env.sysinfo_bytes with
  | some memory_bytes =>
      let memory_mb := memory_bytes / 1024 / 1024
      (Except.ok memory_mb,
        { performance_stats := update_memory_query_stats st.performance_stats duration_ms true
          memory_history := update_memory_history st.memory_history now memory_mb
          system_memory_history :=
            update_system_memory_history st.system_memory_history memory_mb })
  | none =>
      (Except.error MemoryError.MetricsCollectionFailed,
        { st with
          performance_stats := update_memory_query_stats st.performance_stats duration_ms false })

/-- `get_current_memory_usage`: when jemalloc is available and the guarded
probe yields `bytes > 0` whose MB value is positive, that value is returned
immediately (note: this early return bypasses the statistics and history
updates); every other path funnels into the sysinfo fallback. -/
def get_current_memory_usage (env : QueryEnv) (st : QueryState) (now : ℤ)
    (duration_ms : Nat) : Except MemoryError Nat × QueryState :=
  if env.jemalloc_available then
    match env.jemalloc_bytes with
    | some bytes =>
        if 0 < bytes then
          let mb := bytes / 1024 / 1024
          if 0 < mb then (Except.ok mb, st)
          else fallback_memory_query env st now duration_ms
        else fallback_memory_query env st now duration_ms
    | none => fallback_memory_query env st now duration_ms
  else fallback_memory_query env st now duration_ms

/-- Whether `get_current_memory_usage` takes the jemalloc early return. -/
def jemalloc_fast_path (env : QueryEnv) : Bool :=
  env.jemalloc_available &&
    match env.jemalloc_bytes with
    | some bytes => decide (0 < bytes) && decide (0 < bytes / 1024 / 1024)
    | none => false

/-- Outcomes of the collaborator calls made by `trigger_global_release`:
`before_usage`/`after_usage` are the two usage queries (`none` = error,
handled by the `0` and "assume no change" fallbacks), `cache_cleaned` is
`cleanup_cache`'s count (`none` = failure or timeout, treated as 0 entries),
and `purge_succeeded` records whether the jemalloc purge completed without
error inside its 10 s timeout. -/
structure ReleaseEnv where
  before_usage : Option Nat
  cache_cleaned : Option Nat
  jemalloc_available : Bool
  purge_succeeded : Bool
  after_usage : Option Nat
deriving DecidableEq

/-- `trigger_global_release`: every collaborator failure is absorbed
(`memory_before` falls back to 0, a failed cache cleanup contributes 0
entries, a failed or unavailable purge just leaves `gc_executed = false`,
a failed after-query assumes no change), `memory_freed_mb` is
`memory_before.saturating_sub(memory_after)`, and the function ends in
`Ok(result)` — there is no error return path. -/
def trigger_global_release (env : ReleaseEnv) : Except MemoryError ReleaseResult :=
  let memory_before := env.before_usage.getD 0
  let cache_entries_cleared := env.cache_cleaned.getD 0
  let gc_executed := env.jemalloc_available && env.purge_succeeded
  let memory_after := env.after_usage.getD memory_before
  Except.ok
    { memory_freed_mb := memory_before - memory_after
      cache_entries_cleared := cache_entries_cleared
      gc_executed := gc_executed }

/-- `check_and_release_if_needed`: a failed usage query propagates its
error; otherwise the release pipeline runs exactly when
`should_trigger_release` fires and its result is wrapped in `some`
(the `?` on `trigger_global_release` propagates an error, were one
produced). -/
def check_and_release_if_needed (cfg : MemoryConfig) (query_usage : Option Nat)
    (elapsed_secs : Nat) (renv : ReleaseEnv) :
    Except MemoryError (Option ReleaseResult) :=
  match query_usage with
  | none => Except.error MemoryError.MetricsCollectionFailed
  | some current_memory =>
      if should_trigger_release cfg current_memory elapsed_secs then
        match trigger_global_release renv with
        | Except.ok result => Except.ok (some result)
        | Except.error e => Except.error e
      else Except.ok none

/-- The pressure multiplier of `calculate_adaptive_interval`. -/
def pressure_multiplier : MemoryPressure → ℚ
  | MemoryPressure.Critical => 1 / 2
  | MemoryPressure.High => 3 / 4
  | MemoryPressure.Medium => 1
  | MemoryPressure.Low => 3 / 2

/-- The failure multiplier of `calculate_adaptive_interval`
(`0..=2 → 1.0`, `3..=5 → 1.5`, otherwise `2.0`). -/
def failure_multiplier (consecutive_failures : Nat) : ℚ :=
  if consecutive_failures ≤ 2 then 1
  else if consecutive_failures ≤ 5 then 3 / 2
  else 2

/-- The `new_interval` binding of `calculate_adaptive_interval`:
`((base_interval as f64 * pressure_multiplier * failure_multiplier) as u64).max(5).min(300)`.
The `as u64` cast truncates the nonnegative product, i.e. takes its floor
(the cast's saturation at `u64::MAX` is invisible behind `.min(300)`). -/
def adaptive_new_interval (base_interval consecutive_failures : Nat)
    (pressure : MemoryPressure) : Nat :=
  min (max (⌊(base_interval : ℚ) * pressure_multiplier pressure
              * failure_multiplier consecutive_failures⌋.toNat) 5) 300

/-- `calculate_adaptive_interval`: compute the fresh clamped interval, but
if the last adjustment was under 60 s ago and the fresh value differs from
`current_interval`, return the prior `current_interval` unchanged. -/
def calculate_adaptive_interval (base_interval current_interval consecutive_failures : Nat)
    (pressure : MemoryPressure) (elapsed_since_adjustment_secs : Nat) : Nat :=
  if elapsed_since_adjustment_secs < 60 ∧
      adaptive_new_interval base_interval consecutive_failures pressure ≠ current_interval then
    current_interval
  else adaptive_new_interval base_interval consecutive_failures pressure

/-- Rank of a pressure level in the Low → Critical order. -/
def pressure_rank : MemoryPressure → Nat
  | MemoryPressure.Low => 0
  | MemoryPressure.Medium => 1
  | MemoryPressure.High => 2
  | MemoryPressure.Critical => 3

/-- 20 strictly increasing samples 100,105,…,195 recorded 10 ms apart
(instants in ms). -/
def trend_example_10ms : List (ℤ × Nat) :=
  [(0, 100), (10, 105), (20, 110), (30, 115), (40, 120), (50, 125), (60, 130),
   (70, 135), (80, 140), (90, 145), (100, 150), (110, 155), (120, 160),
   (130, 165), (140, 170), (150, 175), (160, 180), (170, 185), (180, 190),
   (190, 195)]

/-- The same 20 strictly increasing samples recorded 1 s apart. -/
def trend_example_1s : List (ℤ × Nat) :=
  [(0, 100), (1000, 105), (2000, 110), (3000, 115), (4000, 120), (5000, 125),
   (6000, 130), (7000, 135), (8000, 140), (9000, 145), (10000, 150),
   (11000, 155), (12000, 160), (13000, 165), (14000, 170), (15000, 175),
   (16000, 180), (17000, 185), (18000, 190), (19000, 195)]

/-- A hypothetical prior history of 1002 fresh samples, used to probe
`update_memory_history` outside its reachable states. -/
def overfull_history : List (ℤ × Nat) := List.replicate 1002 ((0 : ℤ), 5)

/-- `calculate_pressure_level_exact` at a nonzero threshold is the plain
three-guard band match on the exact rational percentage. -/
theorem calculate_pressure_level_exact_pos (current_mb threshold_mb : Nat)
    (ht : threshold_mb ≠ 0) :
    calculate_pressure_level_exact current_mb threshold_mb =
      (if (current_mb : ℚ) / (threshold_mb : ℚ) * 100 < 60 then MemoryPressure.Low
       else if (current_mb : ℚ) / (threshold_mb : ℚ) * 100 < 80 then MemoryPressure.Medium
       else if (current_mb : ℚ) / (threshold_mb : ℚ) * 100 < 100 then MemoryPressure.High
       else MemoryPressure.Critical) := by
  simp [calculate_pressure_level_exact, ht]

/-- C10: classification is total even outside its documented precondition:
with `threshold_mb = 0` the f64 division yields `+inf` or `NaN`, both of
which fail every `<` guard, so `calculate_pressure_level` returns
`Critical` for every usage value and no caller input can make
classification fail or fall outside the enum. -/
theorem pressure_level_zero_threshold_total (current_mb : Nat) :
    calculate_pressure_level current_mb 0 = MemoryPressure.Critical := by
  simp [calculate_pressure_level]

/-- C6 counterexample: the universal "exact ratio falls into the higher
band" clause fails under the program's f64 arithmetic: the pair
`(12000000000000009, 20000000000000015)` is an exact 60 % ratio
(`100·c = 60·t`), yet with both operands above `2^53` the `as f64`
conversions round, the computed percentage lands strictly below `60.0`,
and the program classifies it `Low` instead of the claimed `Medium`. -/
theorem pressure_level_f64_counterexample :
    100 * 12000000000000009 = 60 * 20000000000000015
    ∧ calculate_pressure_level 12000000000000009 20000000000000015 = MemoryPressure.Low :=
  ⟨by norm_num, by decide⟩

/-- C6 amended: the boundary table `(299,500)→Low, (300,500)→Medium,
(399,500)→Medium, (400,500)→High, (499,500)→High, (500,500)→Critical,
(600,500)→Critical` holds under the program's f64 arithmetic, and the
"exact 60 %, 80 % or 100 % ratio falls into the higher band" rule holds
for the ideal exact-rational percentage (`calculate_pressure_level_exact`)
and is exhibited by the program at the small exact-ratio pairs `(3,5)`,
`(4,5)` and `(1,1)` — but it is not universal under f64, as operands above
`2^53` may round across a band edge. -/
theorem pressure_level_boundaries :
    (calculate_pressure_level 299 500 = MemoryPressure.Low
      ∧ calculate_pressure_level 300 500 = MemoryPressure.Medium
      ∧ calculate_pressure_level 399 500 = MemoryPressure.Medium
      ∧ calculate_pressure_level 400 500 = MemoryPressure.High
      ∧ calculate_pressure_level 499 500 = MemoryPressure.High
      ∧ calculate_pressure_level 500 500 = MemoryPressure.Critical
      ∧ calculate_pressure_level 600 500 = MemoryPressure.Critical)
    ∧ (∀ current_mb threshold_mb : Nat, 0 < threshold_mb →
        (100 * current_mb = 60 * threshold_mb →
          calculate_pressure_level_exact current_mb threshold_mb = MemoryPressure.Medium)
        ∧ (100 * current_mb = 80 * threshold_mb →
          calculate_pressure_level_exact current_mb threshold_mb = MemoryPressure.High)
        ∧ (100 * current_mb = 100 * threshold_mb →
          calculate_pressure_level_exact current_mb threshold_mb = MemoryPressure.Critical))
    ∧ (calculate_pressure_level 3 5 = MemoryPressure.Medium
      ∧ calculate_pressure_level 4 5 = MemoryPressure.High
      ∧ calculate_pressure_level 1 1 = MemoryPressure.Critical) := by
  refine ⟨by decide, ?_, by decide⟩
  intro c t ht
  have ht0 : t ≠ 0 := by omega
  have htq : (t : ℚ) ≠ 0 := by exact_mod_cast ht0
  rw [calculate_pressure_level_exact_pos c t ht0]
  refine ⟨?_, ?_, ?_⟩ <;> intro h
  · have hq : (100 : ℚ) * (c : ℚ) = 60 * (t : ℚ) := by exact_mod_cast h
    have hp : (c : ℚ) / (t : ℚ) * 100 = 60 := by
      field_simp
      linarith
    rw [hp]
    norm_num
  · have hq : (100 : ℚ) * (c : ℚ) = 80 * (t : ℚ) := by exact_mod_cast h
    have hp : (c : ℚ) / (t : ℚ) * 100 = 80 := by
      field_simp
      linarith
    rw [hp]
    norm_num
  · have hq : (100 : ℚ) * (c : ℚ) = 100 * (t : ℚ) := by exact_mod_cast h
    have hp : (c : ℚ) / (t : ℚ) * 100 = 100 := by
      field_simp
      linarith
    rw [hp]
    norm_num

/-- Witness for the exact-rational clause of the boundary theorem, at the
exact 60 % pair `(3, 5)`. -/
theorem pressure_level_boundaries_witness :
    calculate_pressure_level_exact 3 5 = MemoryPressure.Medium :=
  (pressure_level_boundaries.2.1 3 5 (by norm_num)).1 (by norm_num)

/-- C8: `trigger_global_release` never returns an error: for every
combination of collaborator outcomes it produces `Ok` with
`memory_freed_mb = usage_before.saturating_sub(usage_after)`, which is
never larger than `usage_before`; and "0 MB freed, 0 cache entries, no
purge executed" is a concrete valid outcome. -/
theorem trigger_global_release_never_errors :
    (∀ env : ReleaseEnv,
      ∃ r : ReleaseResult,
        trigger_global_release env = Except.ok r
          ∧ r.memory_freed_mb =
              env.before_usage.getD 0 - env.after_usage.getD (env.before_usage.getD 0)
          ∧ r.memory_freed_mb ≤ env.before_usage.getD 0)
    ∧ trigger_global_release
        { before_usage := some 100
          cache_cleaned := some 0
          jemalloc_available := false
          purge_succeeded := false
          after_usage := some 100 }
        = Except.ok
            { memory_freed_mb := 0
              cache_entries_cleared := 0
              gc_executed := false } :=
  ⟨fun _ => ⟨_, rfl, rfl, Nat.sub_le _ _⟩, rfl⟩

/-- C1: `should_trigger_release` fires exactly when the usage strictly
exceeds the threshold and the whole-second elapsed time since the last
release has reached the cooldown, and `check_and_release_if_needed`
consequently runs the release pipeline exactly then — the gated-off case
is `Ok(None)`, a no-op rather than an error. -/
theorem release_gate_characterization (cfg : MemoryConfig) (current_mb elapsed_secs : Nat)
    (renv : ReleaseEnv) :
    (should_trigger_release cfg current_mb elapsed_secs = true ↔
      (cfg.threshold_mb < current_mb ∧ cfg.gc_cooldown_secs ≤ elapsed_secs))
    ∧ ((cfg.threshold_mb < current_mb ∧ cfg.gc_cooldown_secs ≤ elapsed_secs) →
        ∃ r, check_and_release_if_needed cfg (some current_mb) elapsed_secs renv
          = Except.ok (some r))
    ∧ (¬(cfg.threshold_mb < current_mb ∧ cfg.gc_cooldown_secs ≤ elapsed_secs) →
        check_and_release_if_needed cfg (some current_mb) elapsed_secs renv
          = Except.ok none) := by
  have hgate : should_trigger_release cfg current_mb elapsed_secs = true ↔
      (cfg.threshold_mb < current_mb ∧ cfg.gc_cooldown_secs ≤ elapsed_secs) := by
    unfold should_trigger_release
    by_cases hle : current_mb ≤ cfg.threshold_mb <;> simp [hle] <;> omega
  have hred : check_and_release_if_needed cfg (some current_mb) elapsed_secs renv
      = if should_trigger_release cfg current_mb elapsed_secs then
          match trigger_global_release renv with
          | Except.ok result => Except.ok (some result)
          | Except.error e => Except.error e
        else Except.ok none := rfl
  refine ⟨hgate, ?_, ?_⟩
  · intro hcond
    rw [hred, if_pos (hgate.mpr hcond)]
    exact ⟨_, rfl⟩
  · intro hncond
    rw [hred, if_neg (fun hst => hncond (hgate.mp hst))]

/-- Witness for the release gate: usage 600 over threshold 500 with the
cooldown (30 s) exactly elapsed runs the pipeline. -/
theorem release_gate_characterization_witness :
    ∃ r, check_and_release_if_needed
        { threshold_mb := 500
          check_interval_secs := 30
          gc_cooldown_secs := 30 }
        (some 600) 30
        { before_usage := some 600
          cache_cleaned := some 3
          jemalloc_available := true
          purge_succeeded := true
          after_usage := some 550 }
      = Except.ok (some r) :=
  (release_gate_characterization
    { threshold_mb := 500
      check_interval_secs := 30
      gc_cooldown_secs := 30 } 600 30
    { before_usage := some 600
      cache_cleaned := some 3
      jemalloc_available := true
      purge_succeeded := true
      after_usage := some 550 }).2.1 (by norm_num)

/-- C9: immediately after `MemoryManager::new` the internal `last_gc_time`
is seeded with the construction instant even though no release has occurred
(`last_release_time` is `None`); consequently, for every usage value,
`should_trigger_release` answers `false` while less than `gc_cooldown_secs`
whole seconds have passed since construction. -/
theorem initial_cooldown_gate (cfg : MemoryConfig) (t0 now : ℤ) (current_mb : Nat)
    (h : (now - t0).toNat / 1000 < cfg.gc_cooldown_secs) :
    (MemoryManager.new cfg t0).last_gc_time = t0
    ∧ (MemoryManager.new cfg t0).monitor_state.last_release_time = none
    ∧ should_trigger_release_at (MemoryManager.new cfg t0) current_mb now = false := by
  refine ⟨rfl, rfl, ?_⟩
  unfold should_trigger_release_at should_trigger_release MemoryManager.new
  by_cases hle : current_mb ≤ cfg.threshold_mb <;> simp [hle] <;> omega

/-- Witness for the construction-time cooldown gate: 5 s after
construction with a 30 s cooldown, even usage 999999 does not trigger. -/
theorem initial_cooldown_gate_witness :
    should_trigger_release_at
        (MemoryManager.new
          { threshold_mb := 500
            check_interval_secs := 30
            gc_cooldown_secs := 30 } 0)
        999999 5000 = false :=
  (initial_cooldown_gate
    { threshold_mb := 500
      check_interval_secs := 30
      gc_cooldown_secs := 30 }
    0 5000 999999 (by decide)).2.2

/-- C4 counterexample: constructing the manager from the all-zero
configuration does not fail — `MemoryManager::new` returns `Self` (no
`Result`, no validation), so the zero config yields the ordinary initial
state instead of an `InvalidConfig` error. -/
theorem manager_new_zero_config_counterexample :
    MemoryManager.new
        { threshold_mb := 0
          check_interval_secs := 0
          gc_cooldown_secs := 0 } 0
      = { config :=
            { threshold_mb := 0
              check_interval_secs := 0
              gc_cooldown_secs := 0 }
          last_gc_time := 0
          memory_pressure := MemoryPressure.Low
          gc_failure_count := 0
          monitor_state :=
            { current_usage_mb := 0
              peak_usage_mb := 0
              pressure_level := MemoryPressure.Low
              last_release_time := none
              release_count := 0
              total_freed_mb := 0 }
          performance_stats := PerformanceStats.defaults
          start_time := 0
          memory_history := []
          system_memory_history := [] } := rfl

/-- C4 amended: construction performs no validation at all — for every
configuration, including zero values, `MemoryManager::new` succeeds and
returns the initial manager state carrying that configuration unchanged. -/
theorem manager_new_no_validation (cfg : MemoryConfig) (now : ℤ) :
    (MemoryManager.new cfg now).config = cfg
    ∧ (MemoryManager.new cfg now).last_gc_time = now
    ∧ (MemoryManager.new cfg now).memory_pressure = MemoryPressure.Low
    ∧ (MemoryManager.new cfg now).monitor_state.release_count = 0 :=
  ⟨rfl, rfl, rfl, rfl⟩

/-- C2 counterexample: the 20-sample strictly increasing history recorded
at 10 ms spacing is within the claim's scope (≥ 10 samples), yet
`get_memory_trend` returns `none`: the 5-sample sub-window spans 40 ms,
which `as_secs` truncates to 0 whole seconds, taking the zero-span branch
instead of producing a positive value. -/
theorem memory_trend_10ms_counterexample :
    trend_example_10ms.length = 20
    ∧ get_memory_trend trend_example_10ms = none := by
  exact ⟨rfl, by decide⟩

/-- C2 amended: `get_memory_trend` returns `none` whenever the history has
fewer than 10 samples; the strictly increasing sequence 100,105,…,195
yields a strictly positive trend when its sub-window spans a nonzero whole
number of seconds — e.g. at 1 s spacing (at 10 ms spacing the sub-window's
whole-second span is 0 and the result is `none`). -/
theorem memory_trend_properties :
    (∀ history : List (ℤ × Nat), history.length < 10 →
      get_memory_trend history = none)
    ∧ trend_example_1s.length = 20
    ∧ ∃ q : ℚ, get_memory_trend trend_example_1s = some q ∧ 0 < q := by
  refine ⟨?_, rfl, ?_⟩
  · intro history hl
    unfold get_memory_trend
    rw [if_pos hl]
  · refine ⟨_, rfl, ?_⟩
    norm_num
    decide

/-- Witness for the short-history branch of the trend theorem: a
single-sample history yields no trend. -/
theorem memory_trend_properties_witness :
    get_memory_trend [((0 : ℤ), 5)] = none :=
  memory_trend_properties.1 [((0 : ℤ), 5)] (by decide)

set_option maxRecDepth 100000 in
/-- C7 counterexample: the count bound does not hold for arbitrary prior
contents — from a hypothetical prior history of 1002 fresh samples, one
insertion removes only the single front element and the age filter keeps
everything, leaving 1002 samples, more than the claimed 1000. -/
theorem memory_history_overfull_counterexample :
    overfull_history.length = 1002
    ∧ 1000 < (update_memory_history overfull_history 0 7).length := by decide

/-- C7 amended: provided the history held at most 1000 samples before the
insertion — true of every history reachable from the empty initial state,
since this is preserved by each insert — after `update_memory_history` the
history holds at most 1000 samples and every retained sample is younger
than 3600 s (the count bound is enforced by dropping the single front,
i.e. oldest, element). -/
theorem memory_history_invariant (history : List (ℤ × Nat)) (now : ℤ) (memory_mb : Nat)
    (hlen : history.length ≤ 1000) :
    (update_memory_history history now memory_mb).length ≤ 1000
    ∧ ∀ s ∈ update_memory_history history now memory_mb, now - s.1 < 3600 * 1000 := by
  have key : update_memory_history history now memory_mb
      = (if 1000 < (history ++ [(now, memory_mb)]).length
          then (history ++ [(now, memory_mb)]).tail
          else history ++ [(now, memory_mb)]).filter
          (fun s => decide (now - 3600000 < s.1)) := rfl
  rw [key]
  constructor
  · apply le_trans (List.length_filter_le _ _)
    by_cases hc : 1000 < (history ++ [(now, memory_mb)]).length
    · rw [if_pos hc]
      rw [List.length_tail]
      simp only [List.length_append, List.length_singleton] at hc ⊢
      omega
    · rw [if_neg hc]
      omega
  · intro s hs
    have hp := (List.mem_filter.mp hs).2
    have hp' : now - 3600000 < s.1 := by simpa using hp
    omega

/-- Witness for the history invariant at the empty history. -/
theorem memory_history_invariant_witness :
    (update_memory_history [] 0 5).length ≤ 1000 :=
  (memory_history_invariant [] 0 5 (by decide)).1

/-- C5 counterexample: a call that returns a usage value through the
jemalloc path (2 MiB allocated, so `mb = 2 > 0`) takes the early return
and records nothing: the performance statistics and both histories are
returned untouched — `memory_query_success` stays 0 and no sample is
appended — contradicting "every call that returns a usage value records a
success and appends exactly one sample". -/
theorem memory_query_fast_path_counterexample :
    get_current_memory_usage
        { jemalloc_available := true
          jemalloc_bytes := some 2097152
          sysinfo_bytes := some 2097152 }
        { performance_stats := PerformanceStats.defaults
          memory_history := []
          system_memory_history := [] } 0 1
      = (Except.ok 2,
          { performance_stats := PerformanceStats.defaults
            memory_history := []
            system_memory_history := [] })
    ∧ PerformanceStats.defaults.memory_query_success = 0
    ∧ PerformanceStats.defaults.memory_query_failures = 0 :=
  ⟨rfl, rfl, rfl⟩

/-- C5 amended: calls resolved by the sysinfo fallback behave as claimed —
a returned usage value records one success (and folds the latency into the
running average) and passes exactly one new sample into the history update,
and an error records one failure and leaves the history unchanged — but a
call resolved by the jemalloc fast path returns its value with the
statistics and history untouched. -/
theorem memory_query_recording (env : QueryEnv) (st : QueryState) (now : ℤ)
    (duration_ms : Nat) :
    (jemalloc_fast_path env = true →
      ∃ mb, get_current_memory_usage env st now duration_ms = (Except.ok mb, st))
    ∧ (jemalloc_fast_path env = false → ∀ b, env.sysinfo_bytes = some b →
        get_current_memory_usage env st now duration_ms =
          (Except.ok (b / 1024 / 1024),
            { performance_stats := update_memory_query_stats st.performance_stats duration_ms true
              memory_history := update_memory_history st.memory_history now (b / 1024 / 1024)
              system_memory_history :=
                update_system_memory_history st.system_memory_history (b / 1024 / 1024) }))
    ∧ (jemalloc_fast_path env = false → env.sysinfo_bytes = none →
        get_current_memory_usage env st now duration_ms =
          (Except.error MemoryError.MetricsCollectionFailed,
            { st with performance_stats :=
                update_memory_query_stats st.performance_stats duration_ms false }))
    ∧ (update_memory_query_stats st.performance_stats duration_ms true).memory_query_success
        = st.performance_stats.memory_query_success + 1
    ∧ (update_memory_query_stats st.performance_stats duration_ms true).memory_query_failures
        = st.performance_stats.memory_query_failures
    ∧ (update_memory_query_stats st.performance_stats duration_ms false).memory_query_failures
        = st.performance_stats.memory_query_failures + 1 := by
  have hfb_ok : ∀ b, env.sysinfo_bytes = some b →
      fallback_memory_query env st now duration_ms =
        (Except.ok (b / 1024 / 1024),
          { performance_stats := update_memory_query_stats st.performance_stats duration_ms true
            memory_history := update_memory_history st.memory_history now (b / 1024 / 1024)
            system_memory_history :=
              update_system_memory_history st.system_memory_history (b / 1024 / 1024) }) := by
    intro b hb
    unfold fallback_memory_query
    rw [hb]
  have hfb_err : env.sysinfo_bytes = none →
      fallback_memory_query env st now duration_ms =
        (Except.error MemoryError.MetricsCollectionFailed,
          { st with performance_stats :=
              update_memory_query_stats st.performance_stats duration_ms false }) := by
    intro hb
    unfold fallback_memory_query
    rw [hb]
  refine ⟨?_, ?_, ?_, ?_, ?_, ?_⟩
  · intro hfast
    obtain ⟨ja, jb, sb⟩ := env
    cases ja with
    | false => simp [jemalloc_fast_path] at hfast
    | true =>
      cases jb with
      | none => simp [jemalloc_fast_path] at hfast
      | some bytes =>
        simp only [jemalloc_fast_path, Bool.true_and, Bool.and_eq_true,
          decide_eq_true_eq] at hfast
        have hred : get_current_memory_usage ⟨true, some bytes, sb⟩ st now duration_ms
            = (if 0 < bytes then
                (if 0 < bytes / 1024 / 1024 then
                  ((Except.ok (bytes / 1024 / 1024) : Except MemoryError Nat), st)
                 else fallback_memory_query ⟨true, some bytes, sb⟩ st now duration_ms)
               else fallback_memory_query ⟨true, some bytes, sb⟩ st now duration_ms) := rfl
        refine ⟨bytes / 1024 / 1024, ?_⟩
        rw [hred, if_pos hfast.1, if_pos hfast.2]
  · intro hslow b hb
    rw [← hfb_ok b hb]
    obtain ⟨ja, jb, sb⟩ := env
    cases ja with
    | false => rfl
    | true =>
      cases jb with
      | none => rfl
      | some bytes =>
        have hred : get_current_memory_usage ⟨true, some bytes, sb⟩ st now duration_ms
            = (if 0 < bytes then
                (if 0 < bytes / 1024 / 1024 then
                  ((Except.ok (bytes / 1024 / 1024) : Except MemoryError Nat), st)
                 else fallback_memory_query ⟨true, some bytes, sb⟩ st now duration_ms)
               else fallback_memory_query ⟨true, some bytes, sb⟩ st now duration_ms) := rfl
        rw [hred]
        by_cases h0 : 0 < bytes
        · by_cases hmb : 0 < bytes / 1024 / 1024
          · simp [jemalloc_fast_path, h0, hmb] at hslow
          · rw [if_pos h0, if_neg hmb]
        · rw [if_neg h0]
  · intro hslow hb
    rw [← hfb_err hb]
    obtain ⟨ja, jb, sb⟩ := env
    cases ja with
    | false => rfl
    | true =>
      cases jb with
      | none => rfl
      | some bytes =>
        have hred : get_current_memory_usage ⟨true, some bytes, sb⟩ st now duration_ms
            = (if 0 < bytes then
                (if 0 < bytes / 1024 / 1024 then
                  ((Except.ok (bytes / 1024 / 1024) : Except MemoryError Nat), st)
                 else fallback_memory_query ⟨true, some bytes, sb⟩ st now duration_ms)
               else fallback_memory_query ⟨true, some bytes, sb⟩ st now duration_ms) := rfl
        rw [hred]
        by_cases h0 : 0 < bytes
        · by_cases hmb : 0 < bytes / 1024 / 1024
          · simp [jemalloc_fast_path, h0, hmb] at hslow
          · rw [if_pos h0, if_neg hmb]
        · rw [if_neg h0]
  · simp [update_memory_query_stats, apply_ite PerformanceStats.memory_query_success]
  · simp [update_memory_query_stats, apply_ite PerformanceStats.memory_query_failures]
  · simp [update_memory_query_stats, apply_ite PerformanceStats.memory_query_failures]

/-- Witness for the fallback-success branch of the recording theorem:
a 3 MiB sysinfo result records a success and one history insertion. -/
theorem memory_query_recording_witness :
    get_current_memory_usage
        { jemalloc_available := false
          jemalloc_bytes := none
          sysinfo_bytes := some 3145728 }
        { performance_stats := PerformanceStats.defaults
          memory_history := []
          system_memory_history := [] } 0 7
      = (Except.ok 3,
          { performance_stats := update_memory_query_stats PerformanceStats.defaults 7 true
            memory_history := update_memory_history [] 0 3
            system_memory_history := update_system_memory_history [] 3 }) :=
  (memory_query_recording
    { jemalloc_available := false
      jemalloc_bytes := none
      sysinfo_bytes := some 3145728 }
    { performance_stats := PerformanceStats.defaults
      memory_history := []
      system_memory_history := [] } 0 7).2.1 (by decide) 3145728 rfl

/-- The pressure multiplier is nonnegative. -/
theorem pressure_multiplier_nonneg (p : MemoryPressure) : 0 ≤ pressure_multiplier p := by
  cases p <;> norm_num [pressure_multiplier]

/-- The failure multiplier is nonnegative. -/
theorem failure_multiplier_nonneg (f : Nat) : 0 ≤ failure_multiplier f := by
  unfold failure_multiplier
  split_ifs <;> norm_num

/-- Higher pressure rank means a smaller (or equal) pressure multiplier. -/
theorem pressure_multiplier_antitone {p q : MemoryPressure}
    (h : pressure_rank p ≤ pressure_rank q) :
    pressure_multiplier q ≤ pressure_multiplier p := by
  cases p <;> cases q <;> simp_all [pressure_rank, pressure_multiplier] <;> norm_num

/-- More consecutive failures mean a larger (or equal) failure multiplier. -/
theorem failure_multiplier_monotone {f g : Nat} (h : f ≤ g) :
    failure_multiplier f ≤ failure_multiplier g := by
  unfold failure_multiplier
  split_ifs <;> first
    | (exfalso; omega)
    | norm_num

/-- The floor-then-clamp step of the adaptive interval is monotone. -/
theorem clamp_floor_monotone {x y : ℚ} (h : x ≤ y) :
    min (max (⌊x⌋.toNat) 5) 300 ≤ min (max (⌊y⌋.toNat) 5) 300 :=
  min_le_min (max_le_max (Int.toNat_le_toNat (Int.floor_mono h)) le_rfl) le_rfl

/-- C3 counterexample: with base interval 1 (as in the repository's own
1-second test configurations), prior interval 1, no failures, Low
pressure and an adjustment 0 s ago, the fresh clamped value is 5 ≠ 1, so
the <60 s anti-oscillation branch returns the prior interval 1 — a value
outside the claimed range [5, 300]. -/
theorem adaptive_interval_suppression_counterexample :
    calculate_adaptive_interval 1 1 0 MemoryPressure.Low 0 = 1
    ∧ ¬ 5 ≤ calculate_adaptive_interval 1 1 0 MemoryPressure.Low 0 := by
  have h : calculate_adaptive_interval 1 1 0 MemoryPressure.Low 0 = 1 := by
    norm_num [calculate_adaptive_interval, adaptive_new_interval,
      pressure_multiplier, failure_multiplier]
  exact ⟨h, by rw [h]; omega⟩

/-- C3 amended: the adaptive interval is monotonically non-increasing as
pressure rises (same failure count) and non-decreasing as consecutive
failures rise (same pressure); the returned value lies in [5, 300]
whenever the 60 s anti-oscillation window has passed, while inside that
window the prior interval is returned unchanged (and is only in range if
the prior interval was). -/
theorem adaptive_interval_properties
    (base_interval current_interval consecutive_failures : Nat)
    (pressure : MemoryPressure) (elapsed : Nat) :
    (elapsed < 60 →
      calculate_adaptive_interval base_interval current_interval
        consecutive_failures pressure elapsed = current_interval)
    ∧ (60 ≤ elapsed →
      5 ≤ calculate_adaptive_interval base_interval current_interval
            consecutive_failures pressure elapsed
        ∧ calculate_adaptive_interval base_interval current_interval
            consecutive_failures pressure elapsed ≤ 300)
    ∧ (∀ p q : MemoryPressure, pressure_rank p ≤ pressure_rank q →
        calculate_adaptive_interval base_interval current_interval
            consecutive_failures q elapsed
          ≤ calculate_adaptive_interval base_interval current_interval
              consecutive_failures p elapsed)
    ∧ (∀ f g : Nat, f ≤ g →
        calculate_adaptive_interval base_interval current_interval
            f pressure elapsed
          ≤ calculate_adaptive_interval base_interval current_interval
              g pressure elapsed) := by
  have hsupp : ∀ (fl : Nat) (pr : MemoryPressure), elapsed < 60 →
      calculate_adaptive_interval base_interval current_interval fl pr elapsed
        = current_interval := by
    intro fl pr he
    unfold calculate_adaptive_interval
    by_cases hne : adaptive_new_interval base_interval fl pr ≠ current_interval
    · rw [if_pos ⟨he, hne⟩]
    · rw [if_neg (fun hc => hne hc.2)]
      exact not_not.mp hne
  have hfresh : ∀ (fl : Nat) (pr : MemoryPressure), 60 ≤ elapsed →
      calculate_adaptive_interval base_interval current_interval fl pr elapsed
        = adaptive_new_interval base_interval fl pr := by
    intro fl pr he
    unfold calculate_adaptive_interval
    rw [if_neg (fun hc => absurd he (by omega))]
  have hrange : ∀ (fl : Nat) (pr : MemoryPressure),
      5 ≤ adaptive_new_interval base_interval fl pr
        ∧ adaptive_new_interval base_interval fl pr ≤ 300 := by
    intro fl pr
    unfold adaptive_new_interval
    exact ⟨le_min (le_max_right _ _) (by norm_num), min_le_right _ _⟩
  have hnew_press : ∀ (fl : Nat) (p q : MemoryPressure),
      pressure_rank p ≤ pressure_rank q →
      adaptive_new_interval base_interval fl q
        ≤ adaptive_new_interval base_interval fl p := by
    intro fl p q hpq
    unfold adaptive_new_interval
    apply clamp_floor_monotone
    apply mul_le_mul_of_nonneg_right _ (failure_multiplier_nonneg fl)
    exact mul_le_mul_of_nonneg_left (pressure_multiplier_antitone hpq)
      (Nat.cast_nonneg base_interval)
  have hnew_fail : ∀ (pr : MemoryPressure) (f g : Nat), f ≤ g →
      adaptive_new_interval base_interval f pr
        ≤ adaptive_new_interval base_interval g pr := by
    intro pr f g hfg
    unfold adaptive_new_interval
    apply clamp_floor_monotone
    exact mul_le_mul_of_nonneg_left (failure_multiplier_monotone hfg)
      (mul_nonneg (Nat.cast_nonneg base_interval) (pressure_multiplier_nonneg pr))
  refine ⟨hsupp consecutive_failures pressure, ?_, ?_, ?_⟩
  · intro he
    rw [hfresh consecutive_failures pressure he]
    exact hrange consecutive_failures pressure
  · intro p q hpq
    by_cases he : elapsed < 60
    · rw [hsupp consecutive_failures q he, hsupp consecutive_failures p he]
    · rw [hfresh consecutive_failures q (by omega), hfresh consecutive_failures p (by omega)]
      exact hnew_press consecutive_failures p q hpq
  · intro f g hfg
    by_cases he : elapsed < 60
    · rw [hsupp f pressure he, hsupp g pressure he]
    · rw [hfresh f pressure (by omega), hfresh g pressure (by omega)]
      exact hnew_fail pressure f g hfg

/-- Witness for the suppression branch of the adaptive interval theorem:
inside the 60 s window the prior interval (30) is kept. -/
theorem adaptive_interval_properties_witness :
    calculate_adaptive_interval 30 30 0 MemoryPressure.Low 0 = 30 :=
  (adaptive_interval_properties 30 30 0 MemoryPressure.Low 0).1 (by omega)
